import Mathlib

/-!
Verification of `src/skills/standards/etsi-spec/scripts/get_etsi_spec.py`.

The Python script is shallowly embedded below: strings are modelled as
`List Char`, the small fixed regular expressions of the script are
translated into explicit matching functions, HTTP calls become explicit
oracles (a fetched response, or a probe function returning a status code),
and Python exceptions become `Except` values.
-/

namespace GetEtsiSpec

/-! ### Character-level models of the Python predicates -/

/-- Model of Python `\s` / `str.strip` whitespace (ASCII): space, tab,
newline, carriage return, vertical tab, form feed. -/
def pyIsSpace (c : Char) : Bool :=
  c.toNat == 32 || c.toNat == 9 || c.toNat == 10 || c.toNat == 13 ||
    c.toNat == 11 || c.toNat == 12

/-- Model of Python `\d` (ASCII digits '0'..'9'). -/
def pyIsDigit (c : Char) : Bool :=
  48 ≤ c.toNat && c.toNat ≤ 57

/-- ASCII letters. -/
def pyIsAlpha (c : Char) : Bool :=
  (65 ≤ c.toNat && c.toNat ≤ 90) || (97 ≤ c.toNat && c.toNat ≤ 122)

/-- Model of Python `\w` (ASCII): letters, digits, underscore. -/
def pyIsWord (c : Char) : Bool :=
  pyIsAlpha c || pyIsDigit c || c == '_'

/-- Model of `str.upper` on one ASCII character. -/
def pyToUpper (c : Char) : Char :=
  if 97 ≤ c.toNat && c.toNat ≤ 122 then Char.ofNat (c.toNat - 32) else c

/-- Model of `str.lower` on one ASCII character. -/
def pyToLower (c : Char) : Char :=
  if 65 ≤ c.toNat && c.toNat ≤ 90 then Char.ofNat (c.toNat + 32) else c

/-- Model of Python `str.strip()`: drop whitespace from both ends. -/
def pyStrip (l : List Char) : List Char :=
  ((l.dropWhile pyIsSpace).reverse.dropWhile pyIsSpace).reverse

/-! ### Identifier Parser (`parse_spec_number`, lines 53-121) -/

/-- The nine recognized ETSI document-type codes, in source order. -/
def docTypes : List (List Char) :=
  ["EN", "ES", "EG", "TS", "TR", "SR", "GS", "GR", "PAS"].map String.toList

/-- Model of Python `str.replace(pat, "")`: remove every non-overlapping
occurrence, scanning left to right. Structured with explicit fuel so that
it is structurally recursive; every step shortens the text by at least one
character, so fuel equal to the text length always suffices. -/
def replaceAllFuel (pat : List Char) : Nat → List Char → List Char
  | 0, s => s
  | _ + 1, [] => []
  | n + 1, c :: rest =>
    if pat ≠ [] ∧ pat.isPrefixOf (c :: rest) then
      replaceAllFuel pat n ((c :: rest).drop pat.length)
    else
      c :: replaceAllFuel pat n rest

/-- Model of Python `str.replace(pat, "")`. -/
def replaceAll (pat s : List Char) : List Char :=
  replaceAllFuel pat s.length s

/-- The document-type detection loop of `parse_spec_number`: for each code,
first try the "ETSI <code>" form (consume by `str.replace` then strip),
then the bare code (slice off its length then strip); the first hit wins,
otherwise the type defaults to "TS" and the text is untouched. -/
def stripDocTypeLoop : List (List Char) → List Char → List Char × List Char
  | [], s => ("TS".toList, s)
  | dt :: rest, s =>
    if ("ETSI ".toList ++ dt).isPrefixOf s then
      (dt, pyStrip (replaceAll ("ETSI ".toList ++ dt) s))
    else if dt.isPrefixOf s then
      (dt, pyStrip (s.drop dt.length))
    else
      stripDocTypeLoop rest s

/-- Model of `re.search(r"-(\d+)$", s)` followed by removal of the whole
match: a match exists exactly when the text ends in a nonempty digit run
preceded by '-'; the digit run is the part, and the text before the '-'
(stripped) remains. -/
def stripPart (l : List Char) : Option (List Char) × List Char :=
  let rl := l.reverse
  let ds := rl.takeWhile pyIsDigit
  if ds.isEmpty then (none, l)
  else
    match rl.dropWhile pyIsDigit with
    | '-' :: r => (some ds.reverse, pyStrip r.reverse)
    | _ => (none, l)

/-- Model of `re.match(r"(\d{3})\s+(\d{3})", s)`: three digits, at least
one whitespace character (greedily consumed), three digits, anchored at
the start, trailing text unrestricted. -/
def match3sp3 : List Char → Option (List Char × List Char)
  | a :: b :: c :: rest =>
    if pyIsDigit a && pyIsDigit b && pyIsDigit c then
      match rest with
      | s :: rest2 =>
        if pyIsSpace s then
          match rest2.dropWhile pyIsSpace with
          | d :: e :: f :: _ =>
            if pyIsDigit d && pyIsDigit e && pyIsDigit f then
              some ([a, b, c], [d, e, f])
            else none
          | _ => none
        else none
      | [] => none
    else none
  | _ => none

/-- Model of `re.match(r"(\d{3})(\d{3})", s)`: six digits anchored at the
start, trailing text unrestricted. -/
def match6 : List Char → Option (List Char × List Char)
  | a :: b :: c :: d :: e :: f :: _ =>
    if pyIsDigit a && pyIsDigit b && pyIsDigit c && pyIsDigit d &&
        pyIsDigit e && pyIsDigit f then
      some ([a, b, c], [d, e, f])
    else none
  | _ => none

/-- Model of `re.match(r"(\d{2})\s+(\d{3})", s)`. -/
def match2sp3 : List Char → Option (List Char × List Char)
  | a :: b :: rest =>
    if pyIsDigit a && pyIsDigit b then
      match rest with
      | s :: rest2 =>
        if pyIsSpace s then
          match rest2.dropWhile pyIsSpace with
          | d :: e :: f :: _ =>
            if pyIsDigit d && pyIsDigit e && pyIsDigit f then
              some ([a, b], [d, e, f])
            else none
          | _ => none
        else none
      | [] => none
    else none
  | _ => none

/-- The three digit-grouping patterns of `parse_spec_number`, tried in
source order; the first match wins. -/
def matchAny (l : List Char) : Option (List Char × List Char) :=
  match match3sp3 l with
  | some r => some r
  | none =>
    match match6 l with
    | some r => some r
    | none => match2sp3 l

/-- The structured identifier returned by `parse_spec_number`
(dict keys `doc_type`, `prefix` (here `pfx`), `number`, `part`). -/
structure SpecId where
  doc_type : String
  pfx : String
  number : String
  part : Option String
deriving Repr, DecidableEq

/-- Model of `parse_spec_number` (lines 53-121): strip and uppercase,
detect the optional document type, detect and remove the optional
"-<digits>" part suffix, then try the three digit-grouping patterns;
raise `ValueError` if none matches. -/
def parse_spec_number (raw : String) : Except String SpecId :=
  let s0 := (pyStrip raw.toList).map pyToUpper
  let dts := stripDocTypeLoop docTypes s0
  let ps := stripPart dts.2
  match match3sp3 ps.2 with
  | some r =>
    Except.ok ⟨String.mk dts.1, String.mk r.1, String.mk r.2, ps.1.map String.mk⟩
  | none =>
    match match6 ps.2 with
    | some r =>
      Except.ok ⟨String.mk dts.1, String.mk r.1, String.mk r.2, ps.1.map String.mk⟩
    | none =>
      match match2sp3 ps.2 with
      | some r =>
        Except.ok ⟨String.mk dts.1, String.mk r.1, String.mk r.2, ps.1.map String.mk⟩
      | none =>
        Except.error ("Invalid ETSI specification number: " ++ String.mk ps.2)

/-- The "remaining text" of an input: the text against which the three
digit-grouping patterns are tried (after strip/uppercase, document-type
removal and part removal). -/
def remainingText (raw : String) : List Char :=
  (stripPart (stripDocTypeLoop docTypes ((pyStrip raw.toList).map pyToUpper)).2).2

/-! ### HTTP and exception model -/

/-- Python exceptions that the embedded functions can raise. -/
inductive PyErr where
  /-- A `requests` transport failure (connection error, timeout). -/
  | transport (msg : String)
  /-- `requests.exceptions.HTTPError` from `raise_for_status` on a 4xx/5xx response. -/
  | httpError (status : Nat)
  /-- `re.error`: a regex literal that fails to compile. -/
  | reError
  /-- `IndexError`: sequence index out of range. -/
  | indexError
  /-- A `PyPDF2` failure reading a malformed document. -/
  | pdfReadError
  /-- `ValueError` with its message. -/
  | valueError (msg : String)
deriving Repr, DecidableEq

/-- An HTTP response for a listing page: its status code and the href
targets of the `<a>` elements BeautifulSoup finds in its body. -/
structure ListingResponse where
  status : Nat
  links : List (List Char)
deriving Repr, DecidableEq

/-- Model of `requests.Response.raise_for_status`: raises `HTTPError`
exactly for 4xx and 5xx status codes. -/
def raise_for_status (status : Nat) : Except PyErr Unit :=
  if 400 ≤ status ∧ status < 600 then Except.error (PyErr.httpError status)
  else Except.ok ()

/-! ### Directory Resolver (`get_spec_directory_url`, lines 124-203) -/

/-- Python's `in` on strings: `needle` occurs contiguously in the text. -/
def hasInfix (needle : List Char) : List Char → Bool
  | [] => needle.isPrefixOf []
  | c :: rest => needle.isPrefixOf (c :: rest) || hasInfix needle rest

/-- The `full_spec` string: `prefix+number`, plus `-part` when a part is
present (lines 141-145). -/
def full_spec_string (spec : SpecId) : List Char :=
  match spec.part with
  | some p => spec.pfx.toList ++ spec.number.toList ++ "-".toList ++ p.toList
  | none => spec.pfx.toList ++ spec.number.toList

/-- The base listing URL for a document type (line 149). -/
def base_listing_url (spec : SpecId) : List Char :=
  "https://www.etsi.org/deliver/etsi_".toList ++
    spec.doc_type.toList.map pyToLower ++ "/".toList

/-- Model of Python `str.rstrip("/")`. -/
def rstripSlash (l : List Char) : List Char :=
  (l.reverse.dropWhile (fun c => c == '/')).reverse

/-- The 100-wide range label chosen by the if/elif chain at lines 181-200
from the numeric value `dir_spec_num`. -/
def range_suffix (dir_spec_num : Nat) : List Char :=
  if dir_spec_num < 100 then "00_099".toList
  else if dir_spec_num < 200 then "100_199".toList
  else if dir_spec_num < 300 then "200_299".toList
  else if dir_spec_num < 400 then "300_399".toList
  else if dir_spec_num < 500 then "400_499".toList
  else if dir_spec_num < 600 then "500_599".toList
  else if dir_spec_num < 700 then "600_699".toList
  else if dir_spec_num < 800 then "700_799".toList
  else if dir_spec_num < 900 then "800_899".toList
  else "900_999".toList

/-- Model of Python `int` on a digit string. -/
def digitsToNat (l : List Char) : Nat :=
  l.foldl (fun acc c => acc * 10 + (c.toNat - 48)) 0

/-- The fallback URL of lines 172-203: both branches of the `if` at line
174 compute `int(prefix + number)`, and the URL template is
base listing URL + prefix + range label + "/" + full_spec + "/". -/
def fallback_directory_url (spec : SpecId) : List Char :=
  base_listing_url spec ++ spec.pfx.toList ++
    range_suffix (digitsToNat (spec.pfx.toList ++ spec.number.toList)) ++
    "/".toList ++ full_spec_string spec ++ "/".toList

/-- Model of `get_spec_directory_url`: try the primary strategy (fetch the
listing page; on a 200 response return the first link containing both the
full spec string and "dir"); any exception is swallowed by the bare
`except` at line 169, and every non-returning path falls through to the
deterministic fallback URL. -/
def get_spec_directory_url (fetch : Except PyErr ListingResponse) (spec : SpecId) :
    List Char :=
  match fetch with
  | Except.error _ => fallback_directory_url spec
  | Except.ok r =>
    if r.status == 200 then
      match r.links.find? (fun href =>
          hasInfix (full_spec_string spec) href && hasInfix ("dir".toList) href) with
      | some href => base_listing_url spec ++ rstripSlash href
      | none => fallback_directory_url spec
    else fallback_directory_url spec

/-! ### Version Enumerator (`get_version_directories`, lines 206-250) -/

/-- The regex literal at line 236 exactly as the source writes it
(raw string `(\d{2}\.\d{2}\.\d{2}(?:_\d{2})?`). -/
def versionDirPattern : List Char :=
  "(\\d{2}\\.\\d{2}\\.\\d{2}(?:_\\d{2})?".toList

/-- The group-balance check Python's regex compiler performs: a
backslash-escaped character is literal, '(' opens a group, ')' closes one;
an unmatched parenthesis makes the pattern fail to compile. -/
def regexParenBalance : List Char → Int → Bool
  | [], acc => acc == 0
  | '\\' :: _ :: rest, acc => regexParenBalance rest acc
  | '(' :: rest, acc => regexParenBalance rest (acc + 1)
  | ')' :: rest, acc => decide (0 < acc) && regexParenBalance rest (acc - 1)
  | _ :: rest, acc => regexParenBalance rest acc

/-- A regex pattern compiles only when its groups are balanced; otherwise
`re.search` raises `re.error` ("missing ), unterminated subpattern"). -/
def regexGroupsClosed (pat : List Char) : Bool :=
  regexParenBalance pat 0

/-- Match `dd.dd.dd` optionally followed by `_dd` at the current
position (the search semantics the pattern describes). -/
def matchVersionAt : List Char → Option (List Char)
  | a :: b :: '.' :: c :: d :: '.' :: e :: f :: rest =>
    if pyIsDigit a && pyIsDigit b && pyIsDigit c && pyIsDigit d &&
        pyIsDigit e && pyIsDigit f then
      match rest with
      | '_' :: g :: h :: _ =>
        if pyIsDigit g && pyIsDigit h then
          some [a, b, '.', c, d, '.', e, f, '_', g, h]
        else some [a, b, '.', c, d, '.', e, f]
      | _ => some [a, b, '.', c, d, '.', e, f]
    else none
  | _ => none

/-- Search for the version pattern at successive start positions. -/
def searchVersion : List Char → Option (List Char)
  | [] => none
  | c :: rest =>
    match matchVersionAt (c :: rest) with
    | some m => some m
    | none => searchVersion rest

/-- Model of `re.search(r"(\d{2}\.\d{2}\.\d{2}(?:_\d{2})?", href)`:
Python compiles the pattern literal on every call, raising `re.error`
when its groups are unbalanced; only a compiled pattern is searched. -/
def reSearchVersion (href : List Char) : Except PyErr (Option (List Char)) :=
  if regexGroupsClosed versionDirPattern then Except.ok (searchVersion href)
  else Except.error PyErr.reError

/-- A version entry: (version directory name, version number, release code). -/
abbrev VersionEntry := List Char × List Char × List Char

/-- Model of Python `str.split(sep)` for a one-character separator. -/
def splitOnChar (sep : Char) : List Char → List (List Char)
  | [] => [[]]
  | c :: rest =>
    if c == sep then [] :: splitOnChar sep rest
    else
      match splitOnChar sep rest with
      | g :: gs => (c :: g) :: gs
      | [] => [[c]]

/-- The link loop of `get_version_directories` (lines 232-245): run the
version-pattern search on each href; each match is split on '_' into the
version number and the release code (defaulting to "00"). -/
def collectVersionDirs : List (List Char) → Except PyErr (List VersionEntry)
  | [] => Except.ok []
  | href :: rest => do
    let m ← reSearchVersion href
    match m with
    | some version_dir =>
      let ps := splitOnChar '_' version_dir
      let entry : VersionEntry :=
        match ps with
        | v :: r :: _ => (version_dir, v, r)
        | [v] => (version_dir, v, "00".toList)
        | [] => (version_dir, [], "00".toList)
      let tail ← collectVersionDirs rest
      Except.ok (entry :: tail)
    | none => collectVersionDirs rest

/-- Lexicographic comparison of character lists by code point, the order
Python uses to compare strings. -/
def strLt : List Char → List Char → Bool
  | [], [] => false
  | [], _ :: _ => true
  | _ :: _, [] => false
  | a :: as, b :: bs =>
    if a.toNat < b.toNat then true
    else if a.toNat == b.toNat then strLt as bs
    else false

/-- Stable insertion (for a descending sort): place `x` before the first
element whose key is strictly smaller, so equal keys keep their original
order — the stability Python's `list.sort` guarantees. -/
def insertDesc (x : VersionEntry) : List VersionEntry → List VersionEntry
  | [] => [x]
  | y :: ys => if strLt y.2.1 x.2.1 then x :: y :: ys else y :: insertDesc x ys

/-- Model of `version_dirs.sort(key=lambda x: x[1], reverse=True)`:
a stable sort, descending by the version-number component. -/
def sortVersionsDesc (vs : List VersionEntry) : List VersionEntry :=
  vs.foldl (fun acc x => insertDesc x acc) []

/-- Model of `get_version_directories` (lines 206-250): fetch the
directory listing; a 404 returns the empty list; any other 4xx/5xx raises
via `raise_for_status`; otherwise collect the version directories from
the links and sort them descending. -/
def get_version_directories (fetch : Except PyErr ListingResponse) :
    Except PyErr (List VersionEntry) := do
  let r ← fetch
  if r.status == 404 then
    return []
  else do
    let _ ← raise_for_status r.status
    let vs ← collectVersionDirs r.links
    return sortVersionsDesc vs

/-! ### Artifact Locator (`get_pdf_url`, lines 253-298) -/

/-- The four candidate filenames of lines 284-289, in source order. -/
def possible_filenames (doc_type full_spec version_no_dots : List Char) :
    List (List Char) :=
  [doc_type ++ "_".toList ++ full_spec ++ "v".toList ++ version_no_dots ++ "p.pdf".toList,
   doc_type ++ "_".toList ++ full_spec ++ "v".toList ++ version_no_dots ++ ".pdf".toList,
   full_spec ++ "v".toList ++ version_no_dots ++ ".pdf".toList,
   full_spec ++ "v".toList ++ version_no_dots ++ "p.pdf".toList]

/-- The probe loop of lines 291-298: `requests.head` each candidate URL in
order, return the first with status 200, raise `ValueError` after
exhausting the list. `headStatus` is the status code the server reports
for each probed URL. -/
def probeLoop (headStatus : List Char → Nat) (version_url : List Char) :
    List (List Char) → Except PyErr (List Char)
  | [] =>
    Except.error (PyErr.valueError ("Could not find PDF file in " ++ String.mk version_url))
  | f :: rest =>
    if headStatus (version_url ++ f) == 200 then Except.ok (version_url ++ f)
    else probeLoop headStatus version_url rest

/-- Model of `get_pdf_url`: build the version sub-directory URL and the
dotless version string, then probe the four candidate filenames. -/
def get_pdf_url (headStatus : List Char → Nat) (directory_url version_dir : List Char)
    (spec : SpecId) : Except PyErr (List Char) :=
  let doc_type := spec.doc_type.toList.map pyToLower
  let full_spec := full_spec_string spec
  let version_url := rstripSlash directory_url ++ "/".toList ++ version_dir ++ "/".toList
  let version_num := (splitOnChar '_' version_dir).headD []
  let version_no_dots := version_num.filter (fun c => !(c == '.'))
  probeLoop headStatus version_url (possible_filenames doc_type full_spec version_no_dots)

/-! ### Metadata Extractor (`extract_pdf_metadata`, lines 301-352) -/

/-- The `/Title` and `/CreationDate` entries of the document information
dictionary (`reader.metadata`); each may be absent. -/
structure PdfInfo where
  title : Option String
  creation_date : Option String
deriving Repr, DecidableEq

/-- A parsed document: its information dictionary (absent when the file
has none) and the extracted text of each page. -/
structure PdfDoc where
  meta : Option PdfInfo
  pages : List String
deriving Repr, DecidableEq

/-- The fetched artifact body: either `PdfReader` parses it, or it is
malformed and `PdfReader` raises. -/
inductive PdfBody where
  | valid (doc : PdfDoc)
  | malformed
deriving Repr, DecidableEq

/-- An HTTP response carrying an artifact body. -/
structure PdfResponse where
  status : Nat
  body : PdfBody
deriving Repr, DecidableEq

/-- Python truthiness of an optional string: `None` and `""` are falsy. -/
def pyTruthy : Option String → Bool
  | none => false
  | some s => !(s == "")

/-- The result dict of `extract_pdf_metadata`: each key may be absent. -/
structure SpecMetadata where
  title : Option String
  creation_date : Option String
  publication_date : Option String
deriving Repr, DecidableEq

/-- The `re.match(r"^[^\w\s]+$", line)` test at line 338: the line is
nonempty and every character is neither a word character nor whitespace. -/
def onlySpecialChars (l : List Char) : Bool :=
  !l.isEmpty && l.all (fun c => !pyIsWord c && !pyIsSpace c)

/-- The title-scan loop at lines 334-340: strip each line and take the
first nonempty one longer than 20 characters that is not composed only of
special characters. -/
def scanTitleLoop : List (List Char) → Option (List Char)
  | [] => none
  | line :: rest =>
    let l := pyStrip line
    if !l.isEmpty && decide (20 < l.length) && !onlySpecialChars l then some l
    else scanTitleLoop rest

/-- Match `D:` followed by eight digits at the current position,
capturing year, month and day (the pattern of line 345). -/
def matchDateAt : List Char → Option (List Char × List Char × List Char)
  | 'D' :: ':' :: a :: b :: c :: d :: e :: f :: g :: h :: _ =>
    if pyIsDigit a && pyIsDigit b && pyIsDigit c && pyIsDigit d &&
        pyIsDigit e && pyIsDigit f && pyIsDigit g && pyIsDigit h then
      some ([a, b, c, d], [e, f], [g, h])
    else none
  | _ => none

/-- Model of `re.search(r"D:(\d{4})(\d{2})(\d{2})", s)`. -/
def searchDate : List Char → Option (List Char × List Char × List Char)
  | [] => none
  | c :: rest =>
    match matchDateAt (c :: rest) with
    | some r => some r
    | none => searchDate rest

/-- The structured fields read at lines 322-324: when the information
dictionary is present (and truthy), `metadata["title"]` and
`metadata["creation_date"]` are set to the entry or to `""`. -/
def structuredFields (doc : PdfDoc) : Option String × Option String :=
  match doc.meta with
  | some info => (some (info.title.getD ""), some (info.creation_date.getD ""))
  | none => (none, none)

/-- The title computation of lines 322-340: when the structured title is
truthy it is kept; otherwise the first page's text is scanned over its
first 20 lines (`reader.pages[0]` raises `IndexError` on a document with
no pages), and the title keeps its previous (untruthy) value when no
line qualifies. -/
def titleResult (doc : PdfDoc) : Except PyErr (Option String) :=
  if pyTruthy (structuredFields doc).1 then
    Except.ok (structuredFields doc).1
  else
    match doc.pages with
    | [] => Except.error PyErr.indexError
    | text :: _ =>
      Except.ok
        (match scanTitleLoop ((splitOnChar '\n' text.toList).take 20) with
         | some l => some (String.mk l)
         | none => (structuredFields doc).1)

/-- The publication-date computation of lines 343-350: when the creation
date is truthy and contains "D:" followed by eight digits, format it as
"YYYY-MM-DD"; otherwise the field stays unset. -/
def publication_from (cd : Option String) : Option String :=
  if pyTruthy cd then
    match searchDate ((cd.getD "").toList) with
    | some (y, m, d) =>
      some (String.mk y ++ "-" ++ String.mk m ++ "-" ++ String.mk d)
    | none => none
  else none

/-- Model of `extract_pdf_metadata`: fetch the artifact,
`raise_for_status`, parse it with `PdfReader` (raising on a malformed
body), read the structured fields, compute the title (possibly raising
`IndexError`), and derive the publication date; any raise propagates. -/
def extract_pdf_metadata (fetch : Except PyErr PdfResponse) :
    Except PyErr SpecMetadata :=
  match fetch with
  | Except.error e => Except.error e
  | Except.ok r =>
    match raise_for_status r.status with
    | Except.error e => Except.error e
    | Except.ok _ =>
      match r.body with
      | PdfBody.malformed => Except.error PyErr.pdfReadError
      | PdfBody.valid doc =>
        match titleResult doc with
        | Except.error e => Except.error e
        | Except.ok title =>
          Except.ok ⟨title, (structuredFields doc).2,
            publication_from (structuredFields doc).2⟩

/-- Modelled directly from the spec's words, for comparison with the
code: "scanning the first page's extracted text, line by line, over the
first 20 lines, selecting the first line longer than 20 characters that
is not composed entirely of non-word/non-space characters" (lines are
compared after stripping). -/
def specTitleFallback (text : String) : Option String :=
  ((((splitOnChar '\n' text.toList).take 20).map pyStrip).find? fun s =>
      decide (20 < s.length) && !(s.all fun c => !pyIsWord c && !pyIsSpace c)).map
    String.mk

/-! ### Character-level lemmas -/

theorem pyIsSpace_of_digit {c : Char} (h : pyIsDigit c = true) : pyIsSpace c = false := by
  simp only [pyIsDigit, Bool.and_eq_true, decide_eq_true_eq] at h
  simp only [pyIsSpace, Bool.or_eq_false_iff, beq_eq_false_iff_ne, ne_eq]
  omega

theorem pyIsDigit_of_space {c : Char} (h : pyIsSpace c = true) : pyIsDigit c = false := by
  simp only [pyIsSpace, Bool.or_eq_true, beq_iff_eq] at h
  simp only [pyIsDigit, Bool.and_eq_false_iff, decide_eq_false_iff_not, not_le]
  omega

theorem pyToUpper_digit {c : Char} (h : pyIsDigit c = true) : pyToUpper c = c := by
  simp only [pyIsDigit, Bool.and_eq_true, decide_eq_true_eq] at h
  have hc : (97 ≤ c.toNat && c.toNat ≤ 122) = false := by
    simp only [Bool.and_eq_false_iff, decide_eq_false_iff_not, not_le]
    omega
  simp [pyToUpper, hc]

theorem letter_beq_digit (c : Char) {a : Char} (h : pyIsDigit a = true)
    (hc : 65 ≤ c.toNat) : (c == a) = false := by
  simp only [pyIsDigit, Bool.and_eq_true, decide_eq_true_eq] at h
  simp only [beq_eq_false_iff_ne, ne_eq]
  intro he
  subst he
  omega

/-! ### Lemmas on the Identifier Parser -/

theorem stripDocTypeLoop_digit {d : Char} (hd : pyIsDigit d = true) (l : List Char) :
    stripDocTypeLoop docTypes (d :: l) = ("TS".toList, d :: l) := by
  have hE := letter_beq_digit 'E' hd (by decide)
  have hT := letter_beq_digit 'T' hd (by decide)
  have hS := letter_beq_digit 'S' hd (by decide)
  have hG := letter_beq_digit 'G' hd (by decide)
  have hP := letter_beq_digit 'P' hd (by decide)
  have hdts : docTypes =
      [['E', 'N'], ['E', 'S'], ['E', 'G'], ['T', 'S'], ['T', 'R'],
       ['S', 'R'], ['G', 'S'], ['G', 'R'], ['P', 'A', 'S']] := rfl
  have hetsi : "ETSI ".toList = ['E', 'T', 'S', 'I', ' '] := rfl
  rw [hdts]
  simp [stripDocTypeLoop, hetsi, List.isPrefixOf, hE, hT, hS, hG, hP]

theorem dropWhile_append_cons {p : Char → Bool} {l m : List Char} {c : Char}
    (t : List Char) (h : l.dropWhile p = c :: m) :
    (l ++ t).dropWhile p = c :: (m ++ t) := by
  induction l with
  | nil => simp [List.dropWhile] at h
  | cons a l ih =>
    by_cases hp : p a = true
    · rw [List.dropWhile_cons_of_pos hp] at h
      rw [List.cons_append, List.dropWhile_cons_of_pos hp]
      exact ih h
    · rw [List.dropWhile_cons_of_neg hp] at h
      rw [List.cons_append, List.dropWhile_cons_of_neg hp]
      rw [List.cons.injEq] at h
      rw [h.1, ← h.2]

theorem match3sp3_append {l t : List Char} {r : List Char × List Char}
    (h : match3sp3 l = some r) : match3sp3 (l ++ t) = some r := by
  rcases l with _ | ⟨a, _ | ⟨b, _ | ⟨c, rest⟩⟩⟩
  · simp [match3sp3] at h
  · simp [match3sp3] at h
  · simp [match3sp3] at h
  simp only [List.cons_append, match3sp3] at h ⊢
  by_cases h1 : (pyIsDigit a && pyIsDigit b && pyIsDigit c) = true
  · simp only [h1, if_true] at h ⊢
    cases rest with
    | nil => simp at h
    | cons s rest2 =>
      simp only [List.cons_append]
      by_cases hs : pyIsSpace s = true
      · simp only [hs, if_true] at h ⊢
        rcases hdw : rest2.dropWhile pyIsSpace with _ | ⟨d, _ | ⟨e, _ | ⟨f, tail⟩⟩⟩ <;>
          rw [hdw] at h
        · simp at h
        · simp at h
        · simp at h
        rw [dropWhile_append_cons t hdw]
        simp only at h ⊢
        exact h
      · simp [hs] at h
  · simp [h1] at h

theorem match6_append {l t : List Char} {r : List Char × List Char}
    (h : match6 l = some r) : match6 (l ++ t) = some r := by
  rcases l with _ | ⟨a, _ | ⟨b, _ | ⟨c, _ | ⟨d, _ | ⟨e, _ | ⟨f, rest⟩⟩⟩⟩⟩⟩
  · simp [match6] at h
  · simp [match6] at h
  · simp [match6] at h
  · simp [match6] at h
  · simp [match6] at h
  · simp [match6] at h
  simp only [List.cons_append]
  simp only [match6] at h ⊢
  by_cases h1 : (pyIsDigit a && pyIsDigit b && pyIsDigit c && pyIsDigit d &&
      pyIsDigit e && pyIsDigit f) = true
  · simp only [h1, if_true] at h ⊢
    exact h
  · rw [if_neg h1] at h
    exact Option.noConfusion h

theorem match2sp3_append {l t : List Char} {r : List Char × List Char}
    (h : match2sp3 l = some r) : match2sp3 (l ++ t) = some r := by
  rcases l with _ | ⟨a, _ | ⟨b, rest⟩⟩
  · simp [match2sp3] at h
  · simp [match2sp3] at h
  simp only [List.cons_append, match2sp3] at h ⊢
  by_cases h1 : (pyIsDigit a && pyIsDigit b) = true
  · simp only [h1, if_true] at h ⊢
    cases rest with
    | nil => simp at h
    | cons s rest2 =>
      simp only [List.cons_append]
      by_cases hs : pyIsSpace s = true
      · simp only [hs, if_true] at h ⊢
        rcases hdw : rest2.dropWhile pyIsSpace with _ | ⟨d, _ | ⟨e, _ | ⟨f, tail⟩⟩⟩ <;>
          rw [hdw] at h
        · simp at h
        · simp at h
        · simp at h
        rw [dropWhile_append_cons t hdw]
        simp only at h ⊢
        exact h
      · simp [hs] at h
  · simp [h1] at h

theorem match3sp3_append_of_match6 {l t : List Char} {r : List Char × List Char}
    (h : match6 l = some r) : match3sp3 (l ++ t) = none := by
  rcases l with _ | ⟨a, _ | ⟨b, _ | ⟨c, _ | ⟨d, _ | ⟨e, _ | ⟨f, rest⟩⟩⟩⟩⟩⟩
  · simp [match6] at h
  · simp [match6] at h
  · simp [match6] at h
  · simp [match6] at h
  · simp [match6] at h
  · simp [match6] at h
  simp only [match6] at h
  by_cases h1 : (pyIsDigit a && pyIsDigit b && pyIsDigit c && pyIsDigit d &&
      pyIsDigit e && pyIsDigit f) = true
  · simp only [Bool.and_eq_true] at h1
    obtain ⟨⟨⟨⟨⟨ha, hb⟩, hc⟩, hd⟩, he⟩, hf⟩ := h1
    simp [match3sp3, List.cons_append, ha, hb, hc, pyIsSpace_of_digit hd]
  · rw [if_neg h1] at h
    exact Option.noConfusion h

theorem match3sp3_append_of_match2sp3 {l t : List Char} {r : List Char × List Char}
    (h : match2sp3 l = some r) : match3sp3 (l ++ t) = none := by
  rcases l with _ | ⟨a, _ | ⟨b, rest⟩⟩
  · simp [match2sp3] at h
  · simp [match2sp3] at h
  by_cases h1 : (pyIsDigit a && pyIsDigit b) = true
  · cases rest with
    | nil => simp [match2sp3, h1] at h
    | cons s rest2 =>
      by_cases hs : pyIsSpace s = true
      · simp [match3sp3, List.cons_append, pyIsDigit_of_space hs]
      · simp [match2sp3, h1, hs] at h
  · simp [match2sp3, h1] at h

theorem match6_append_of_match2sp3 {l t : List Char} {r : List Char × List Char}
    (h : match2sp3 l = some r) : match6 (l ++ t) = none := by
  rcases l with _ | ⟨a, _ | ⟨b, rest⟩⟩
  · simp [match2sp3] at h
  · simp [match2sp3] at h
  by_cases h1 : (pyIsDigit a && pyIsDigit b) = true
  · cases rest with
    | nil => simp [match2sp3, h1] at h
    | cons s rest2 =>
      by_cases hs : pyIsSpace s = true
      · have hsd : pyIsDigit s = false := pyIsDigit_of_space hs
        simp only [List.cons_append]
        rcases hu : rest2 ++ t with _ | ⟨d, _ | ⟨e, _ | ⟨f, tail⟩⟩⟩ <;>
          simp [match6, hsd]
      · simp [match2sp3, h1, hs] at h
  · simp [match2sp3, h1] at h

theorem matchAny_append {l t : List Char} {r : List Char × List Char}
    (h : matchAny l = some r) : matchAny (l ++ t) = some r := by
  unfold matchAny at h ⊢
  cases h3 : match3sp3 l with
  | some x =>
    rw [h3] at h
    rw [match3sp3_append h3]
    exact h
  | none =>
    rw [h3] at h
    cases h6 : match6 l with
    | some x =>
      rw [h6] at h
      rw [match3sp3_append_of_match6 h6, match6_append h6]
      exact h
    | none =>
      rw [h6] at h
      rw [match3sp3_append_of_match2sp3 h, match6_append_of_match2sp3 h]
      exact match2sp3_append h

theorem dropWhile_space_eq_self {m : List Char} (hm : ∀ c ∈ m, pyIsSpace c = false) :
    m.dropWhile pyIsSpace = m := by
  cases m with
  | nil => rfl
  | cons x xs =>
    exact List.dropWhile_cons_of_neg (by simp [hm x (List.mem_cons_self x xs)])

theorem pyStrip_of_no_space {l : List Char} (h : ∀ c ∈ l, pyIsSpace c = false) :
    pyStrip l = l := by
  unfold pyStrip
  rw [dropWhile_space_eq_self h,
    dropWhile_space_eq_self (fun c hc => h c (List.mem_reverse.mp hc)),
    List.reverse_reverse]

theorem map_pyToUpper_digits {l : List Char} (h : ∀ c ∈ l, pyIsDigit c = true) :
    l.map pyToUpper = l := by
  induction l with
  | nil => rfl
  | cons x xs ih =>
    simp only [List.map_cons]
    rw [pyToUpper_digit (h x (List.mem_cons_self x xs)),
      ih (fun c hc => h c (by simp [hc]))]

theorem takeWhile_digit_eq_self {m : List Char} (hm : ∀ c ∈ m, pyIsDigit c = true) :
    m.takeWhile pyIsDigit = m := by
  induction m with
  | nil => rfl
  | cons x xs ih =>
    rw [List.takeWhile_cons_of_pos (by simp [hm x (List.mem_cons_self x xs)])]
    rw [ih (fun c hc => hm c (by simp [hc]))]

theorem dropWhile_digit_eq_nil {m : List Char} (hm : ∀ c ∈ m, pyIsDigit c = true) :
    m.dropWhile pyIsDigit = [] := by
  induction m with
  | nil => rfl
  | cons x xs ih =>
    rw [List.dropWhile_cons_of_pos (by simp [hm x (List.mem_cons_self x xs)])]
    exact ih (fun c hc => hm c (by simp [hc]))

theorem stripPart_all_digits {l : List Char} (h : ∀ c ∈ l, pyIsDigit c = true) :
    stripPart l = (none, l) := by
  have hrev : ∀ c ∈ l.reverse, pyIsDigit c = true :=
    fun c hc => h c (List.mem_reverse.mp hc)
  cases l with
  | nil => rfl
  | cons x xs =>
    simp only [stripPart]
    rw [takeWhile_digit_eq_self hrev, dropWhile_digit_eq_nil hrev]
    have hne : ((x :: xs).reverse).isEmpty = false := by
      simp [List.isEmpty_eq_false]
    simp [hne]

/-- Claim C7: for every input string consisting of exactly six digits
"PPPNNN", `parse_spec_number` succeeds with document type "TS", the first
three digits as the numeric group prefix, the last three as the number,
and no part. -/
theorem c7_parse_six_digits (raw : String) (h6 : raw.toList.length = 6)
    (hdig : ∀ c ∈ raw.toList, pyIsDigit c = true) :
    parse_spec_number raw =
      Except.ok ⟨"TS", String.mk (raw.toList.take 3), String.mk (raw.toList.drop 3), none⟩ := by
  obtain ⟨a, b, c, d, e, f, hl⟩ : ∃ a b c d e f, raw.toList = [a, b, c, d, e, f] := by
    rcases hx : raw.toList with _ | ⟨a, _ | ⟨b, _ | ⟨c, _ | ⟨d, _ | ⟨e, _ | ⟨f, _ | ⟨g, tl⟩⟩⟩⟩⟩⟩⟩
    · rw [hx] at h6; simp only [List.length_nil] at h6; omega
    · rw [hx] at h6; simp only [List.length_cons, List.length_nil] at h6; omega
    · rw [hx] at h6; simp only [List.length_cons, List.length_nil] at h6; omega
    · rw [hx] at h6; simp only [List.length_cons, List.length_nil] at h6; omega
    · rw [hx] at h6; simp only [List.length_cons, List.length_nil] at h6; omega
    · rw [hx] at h6; simp only [List.length_cons, List.length_nil] at h6; omega
    · exact ⟨a, b, c, d, e, f, rfl⟩
    · rw [hx] at h6; simp only [List.length_cons, List.length_nil] at h6; omega
  rw [hl] at hdig
  have ha : pyIsDigit a = true := hdig a (by simp)
  have hb : pyIsDigit b = true := hdig b (by simp)
  have hc : pyIsDigit c = true := hdig c (by simp)
  have hd : pyIsDigit d = true := hdig d (by simp)
  have he : pyIsDigit e = true := hdig e (by simp)
  have hf : pyIsDigit f = true := hdig f (by simp)
  have h1 : pyStrip [a, b, c, d, e, f] = [a, b, c, d, e, f] :=
    pyStrip_of_no_space (fun x hx => pyIsSpace_of_digit (hdig x hx))
  have h2 : [a, b, c, d, e, f].map pyToUpper = [a, b, c, d, e, f] :=
    map_pyToUpper_digits hdig
  have h3 := stripDocTypeLoop_digit ha [b, c, d, e, f]
  have h4 : stripPart [a, b, c, d, e, f] = (none, [a, b, c, d, e, f]) :=
    stripPart_all_digits hdig
  have h5 : match3sp3 [a, b, c, d, e, f] = none := by
    simp [match3sp3, ha, hb, hc, pyIsSpace_of_digit hd]
  have h6' : match6 [a, b, c, d, e, f] = some ([a, b, c], [d, e, f]) := by
    simp [match6, ha, hb, hc, hd, he, hf]
  simp only [parse_spec_number, hl, h1, h2, h3, h4, h5, h6']
  rfl

/-- Witness for C7: the six-digit input "103224" parses to TS 103 224. -/
theorem c7_parse_six_digits_witness :
    parse_spec_number "103224" =
      Except.ok ⟨"TS", String.mk ("103224".toList.take 3),
        String.mk ("103224".toList.drop 3), none⟩ :=
  c7_parse_six_digits "103224" rfl (by decide)

/-- Claim C8: `parse_spec_number` fails (the `ValueError` modelling
`InvalidIdentifier`) exactly when the remaining text after preprocessing
matches none of the three digit-grouping patterns; in particular the
input "not a spec" fails. -/
theorem c8_parse_invalid :
    (∀ raw : String,
      (∃ msg, parse_spec_number raw = Except.error msg) ↔
        matchAny (remainingText raw) = none) ∧
    parse_spec_number "not a spec" =
      Except.error "Invalid ETSI specification number: NOT A SPEC" := by
  refine ⟨fun raw => ?_, rfl⟩
  simp only [parse_spec_number, matchAny, remainingText]
  generalize (stripPart (stripDocTypeLoop docTypes ((pyStrip raw.toList).map pyToUpper)).2).2 = t
  rcases h3 : match3sp3 t with _ | r3 <;> simp only [h3]
  · rcases h6 : match6 t with _ | r6 <;> simp only [h6]
    · rcases h2 : match2sp3 t with _ | r2 <;> simp
    · simp
  · simp

/-- Witness for C8 (for its universally quantified part): at the input
"not a spec" the remaining text matches no pattern and parsing fails. -/
theorem c8_parse_invalid_witness :
    matchAny (remainingText "not a spec") = none :=
  (c8_parse_invalid.1 "not a spec").mp
    ⟨"Invalid ETSI specification number: NOT A SPEC", rfl⟩

/-- Claim C10: each digit-grouping pattern is matched only at the start
of the remaining text, so appending arbitrary trailing characters to a
matching remaining text keeps the very same match; concretely,
"103 224 with extra words" parses to TS 103 224 ignoring the trailing
words, and the seven-digit run "1032249" parses using only its first six
digits. -/
theorem c10_trailing_text :
    (∀ (l t : List Char) (r : List Char × List Char),
        matchAny l = some r → matchAny (l ++ t) = some r) ∧
    parse_spec_number "103 224 with extra words" =
      Except.ok ⟨"TS", "103", "224", none⟩ ∧
    parse_spec_number "1032249" = Except.ok ⟨"TS", "103", "224", none⟩ :=
  ⟨fun _ _ _ h => matchAny_append h, rfl, rfl⟩

/-- Witness for C10: "103224" matches via the six-digit pattern, and
appending a trailing "9" keeps the same captured groups. -/
theorem c10_trailing_text_witness :
    matchAny ("103224".toList ++ "9".toList) = some ("103".toList, "224".toList) :=
  c10_trailing_text.1 "103224".toList "9".toList ("103".toList, "224".toList) rfl

/-! ### Directory Resolver claims -/

/-- Claim C1 (evaluation at the claimed input): the fallback computes
`int(prefix + number) = 103224` from prefix "103" and number "224", and
since the if/elif chain compares that six-digit value (not the numeric
part 224) against the 100-wide bounds, it selects the catch-all label
"900_999" — not the label "200_299" the claim states — so the fallback
URL is `.../etsi_ts/103900_999/103224/`. -/
theorem c1_fallback_range_at_103224 :
    digitsToNat ("103".toList ++ "224".toList) = 103224 ∧
    range_suffix 103224 = "900_999".toList ∧
    get_spec_directory_url (Except.error (PyErr.transport "timeout"))
        ⟨"TS", "103", "224", none⟩ =
      "https://www.etsi.org/deliver/etsi_ts/103900_999/103224/".toList ∧
    range_suffix 103224 ≠ "200_299".toList := by
  refine ⟨rfl, rfl, rfl, ?_⟩
  decide

/-- Claim C6: `get_spec_directory_url` is total — when fetching the
primary listing page raises, the deterministic fallback URL is returned,
and in every case the result is either the fallback URL or the base
listing URL joined with the first scanned link that contains both the
full spec string and "dir". -/
theorem c6_resolver_total :
    (∀ (e : PyErr) (spec : SpecId),
        get_spec_directory_url (Except.error e) spec = fallback_directory_url spec) ∧
    (∀ (fetch : Except PyErr ListingResponse) (spec : SpecId),
        get_spec_directory_url fetch spec = fallback_directory_url spec ∨
        ∃ href, (∃ r, fetch = Except.ok r ∧ href ∈ r.links) ∧
          hasInfix (full_spec_string spec) href = true ∧
          hasInfix ("dir".toList) href = true ∧
          get_spec_directory_url fetch spec = base_listing_url spec ++ rstripSlash href) := by
  refine ⟨fun e spec => rfl, fun fetch spec => ?_⟩
  cases fetch with
  | error e => exact Or.inl rfl
  | ok r =>
    have hred : get_spec_directory_url (Except.ok r) spec =
        (if (r.status == 200) = true then
          match r.links.find? (fun href =>
              hasInfix (full_spec_string spec) href && hasInfix ("dir".toList) href) with
          | some href => base_listing_url spec ++ rstripSlash href
          | none => fallback_directory_url spec
        else fallback_directory_url spec) := rfl
    by_cases hs : (r.status == 200) = true
    · cases hf : r.links.find? (fun href =>
          hasInfix (full_spec_string spec) href && hasInfix ("dir".toList) href) with
      | none =>
        left
        rw [hred, if_pos hs, hf]
      | some href =>
        right
        have hp := List.find?_some hf
        rw [Bool.and_eq_true] at hp
        exact ⟨href, ⟨r, rfl, List.mem_of_find?_eq_some hf⟩, hp.1, hp.2,
          by rw [hred, if_pos hs, hf]⟩
    · left
      rw [hred, if_neg hs]

/-! ### Version Enumerator claims -/

/-- Claim C2 (evaluation at the claimed input): the version-directory
regex literal of line 236 has an unterminated group (its parentheses are
unbalanced), so `re.search` raises `re.error` on the first scanned link
and the enumerator crashes on the very listing page the claim describes,
instead of returning the three entries in descending order. -/
theorem c2_version_pattern_unterminated :
    regexGroupsClosed versionDirPattern = false ∧
    get_version_directories (Except.ok ⟨200,
        ["01.07.01_60/".toList, "01.06.02_30/".toList, "02.01.01_10/".toList]⟩) =
      Except.error PyErr.reError :=
  ⟨rfl, rfl⟩

/-- Claim C5 counterexample: a 304 response is a non-2xx status, yet the
enumerator does not propagate it — `raise_for_status` raises only for
4xx/5xx, so the scan proceeds on the (empty) body and returns the empty
list. -/
theorem c5_non2xx_not_propagated :
    get_version_directories (Except.ok ⟨304, []⟩) = Except.ok [] ∧
    ¬(200 ≤ 304 ∧ 304 < 300) ∧ (304 : Nat) ≠ 404 := by
  refine ⟨rfl, ?_, ?_⟩ <;> decide

/-- Claim C5 amended: a 404 response yields the empty list rather than an
error; a transport failure (network error, timeout) fetching the page is
propagated, and so is every 4xx/5xx status other than 404 (via
`raise_for_status`); statuses outside 400-599 are not propagated. -/
theorem c5_amended_error_handling :
    (∀ links, get_version_directories (Except.ok ⟨404, links⟩) = Except.ok []) ∧
    (∀ e, get_version_directories (Except.error e) = Except.error e) ∧
    (∀ s links, 400 ≤ s → s < 600 → s ≠ 404 →
      get_version_directories (Except.ok ⟨s, links⟩) =
        Except.error (PyErr.httpError s)) := by
  refine ⟨fun links => rfl, fun e => rfl, fun s links h1 h2 h3 => ?_⟩
  have hs : (s == 404) = false := by simp [h3]
  have hred : get_version_directories (Except.ok ⟨s, links⟩) =
      (if (s == 404) = true then Except.ok [] else do
        let _ ← raise_for_status s
        let vs ← collectVersionDirs links
        return sortVersionsDesc vs) := rfl
  rw [hred, if_neg (by simp [hs])]
  unfold raise_for_status
  rw [if_pos ⟨h1, h2⟩]
  rfl

/-- Witness for C5 (amended): a 500 response on a linkless page is
propagated as an `HTTPError`. -/
theorem c5_amended_error_handling_witness :
    get_version_directories (Except.ok ⟨500, []⟩) =
      Except.error (PyErr.httpError 500) :=
  c5_amended_error_handling.2.2 500 [] (by decide) (by decide) (by decide)

/-! ### Artifact Locator claims -/

theorem probeLoop_eq_find? (headStatus : List Char → Nat) (u : List Char)
    (cands : List (List Char)) :
    probeLoop headStatus u cands =
      (match cands.find? (fun f => headStatus (u ++ f) == 200) with
       | some f => Except.ok (u ++ f)
       | none => Except.error (PyErr.valueError
           ("Could not find PDF file in " ++ String.mk u))) := by
  induction cands with
  | nil => rfl
  | cons f rest ih =>
    by_cases hf : (headStatus (u ++ f) == 200) = true
    · simp [probeLoop, List.find?, hf]
    · simp only [probeLoop, List.find?_cons]
      rw [if_neg hf]
      simp only [Bool.not_eq_true] at hf
      rw [hf]
      exact ih

/-- Claim C4: `get_pdf_url` builds exactly four candidate filenames,
probes them in their fixed list order with the header-only status oracle,
returns the first candidate whose probe reports 200, and produces the
`ValueError` modelling `ArtifactNotFound` exactly when no candidate
probes successfully. -/
theorem c4_artifact_locator (headStatus : List Char → Nat)
    (directory_url version_dir : List Char) (spec : SpecId) :
    (possible_filenames (spec.doc_type.toList.map pyToLower) (full_spec_string spec)
        (((splitOnChar '_' version_dir).headD []).filter fun c => !(c == '.'))).length = 4 ∧
    get_pdf_url headStatus directory_url version_dir spec =
      (match (possible_filenames (spec.doc_type.toList.map pyToLower) (full_spec_string spec)
          (((splitOnChar '_' version_dir).headD []).filter fun c => !(c == '.'))).find?
            (fun f => headStatus
              ((rstripSlash directory_url ++ "/".toList ++ version_dir ++ "/".toList) ++ f)
                == 200) with
       | some f => Except.ok
           ((rstripSlash directory_url ++ "/".toList ++ version_dir ++ "/".toList) ++ f)
       | none => Except.error (PyErr.valueError ("Could not find PDF file in " ++
           String.mk (rstripSlash directory_url ++ "/".toList ++ version_dir ++ "/".toList)))) ∧
    ((∃ u, get_pdf_url headStatus directory_url version_dir spec = Except.ok u) ↔
      (possible_filenames (spec.doc_type.toList.map pyToLower) (full_spec_string spec)
          (((splitOnChar '_' version_dir).headD []).filter fun c => !(c == '.'))).any
        (fun f => headStatus
          ((rstripSlash directory_url ++ "/".toList ++ version_dir ++ "/".toList) ++ f)
            == 200) = true) := by
  have h0 : get_pdf_url headStatus directory_url version_dir spec =
      probeLoop headStatus
        (rstripSlash directory_url ++ "/".toList ++ version_dir ++ "/".toList)
        (possible_filenames (spec.doc_type.toList.map pyToLower) (full_spec_string spec)
          (((splitOnChar '_' version_dir).headD []).filter fun c => !(c == '.'))) := rfl
  have h2 := probeLoop_eq_find? headStatus
    (rstripSlash directory_url ++ "/".toList ++ version_dir ++ "/".toList)
    (possible_filenames (spec.doc_type.toList.map pyToLower) (full_spec_string spec)
      (((splitOnChar '_' version_dir).headD []).filter fun c => !(c == '.')))
  refine ⟨rfl, h0.trans h2, ?_⟩
  rw [h0, h2]
  cases hf : (possible_filenames (spec.doc_type.toList.map pyToLower) (full_spec_string spec)
      (((splitOnChar '_' version_dir).headD []).filter fun c => !(c == '.'))).find?
        (fun f => headStatus
          ((rstripSlash directory_url ++ "/".toList ++ version_dir ++ "/".toList) ++ f)
            == 200) with
  | none =>
    simp only [List.find?_eq_none] at hf
    constructor
    · rintro ⟨u, hu⟩
      exact Except.noConfusion hu
    · intro hany
      rw [List.any_eq_true] at hany
      obtain ⟨x, hx, hpx⟩ := hany
      exact absurd hpx (hf x hx)
  | some f =>
    constructor
    · intro _
      rw [List.any_eq_true]
      have hpf := List.find?_some hf
      exact ⟨f, List.mem_of_find?_eq_some hf, hpf⟩
    · intro _
      exact ⟨_, rfl⟩

/-! ### Metadata Extractor claims -/

/-- Claim C3 counterexample: an artifact whose body is fetched
successfully (status 200) and parses as a document with no information
dictionary and zero pages makes the extractor raise `IndexError` at
`reader.pages[0]` — a non-transport failure after a successful fetch. -/
theorem c3_extract_raises_after_fetch :
    extract_pdf_metadata (Except.ok ⟨200, PdfBody.valid ⟨none, []⟩⟩) =
      Except.error PyErr.indexError := rfl

/-- Claim C3 amended: once the artifact is fetched with status 200 and
its body parses as a document, extraction returns a (possibly partial or
empty) `SpecMetadata` provided the structured metadata carries a truthy
title or the document has at least one page; it can only raise on a
malformed body or on a titleless zero-page document. -/
theorem c3_amended_extraction_total (doc : PdfDoc)
    (h : pyTruthy (structuredFields doc).1 = true ∨ doc.pages ≠ []) :
    ∃ m, extract_pdf_metadata (Except.ok ⟨200, PdfBody.valid doc⟩) = Except.ok m := by
  have hred : extract_pdf_metadata (Except.ok ⟨200, PdfBody.valid doc⟩) =
      (match titleResult doc with
       | Except.error e => Except.error e
       | Except.ok title =>
         Except.ok ⟨title, (structuredFields doc).2,
           publication_from (structuredFields doc).2⟩) := rfl
  obtain ⟨t, htr⟩ : ∃ t, titleResult doc = Except.ok t := by
    by_cases ht : pyTruthy (structuredFields doc).1 = true
    · exact ⟨_, by unfold titleResult; rw [if_pos ht]⟩
    · rcases hp : doc.pages with _ | ⟨text, rest⟩
      · rcases h with h' | h'
        · exact absurd h' ht
        · exact absurd hp h'
      · exact ⟨_, by unfold titleResult; rw [if_neg ht, hp]⟩
  rw [hred, htr]
  exact ⟨_, rfl⟩

/-- Witness for C3 (amended): a document carrying a structured title
extracts successfully. -/
theorem c3_amended_extraction_total_witness :
    ∃ m, extract_pdf_metadata
        (Except.ok ⟨200, PdfBody.valid ⟨some ⟨some "T", none⟩, []⟩⟩) = Except.ok m :=
  c3_amended_extraction_total ⟨some ⟨some "T", none⟩, []⟩ (Or.inl rfl)

theorem scanTitleLoop_eq_find? (L : List (List Char)) :
    scanTitleLoop L = (L.map pyStrip).find? (fun s =>
      decide (20 < s.length) && !(s.all fun c => !pyIsWord c && !pyIsSpace c)) := by
  induction L with
  | nil => rfl
  | cons line rest ih =>
    have hc : (!(pyStrip line).isEmpty && decide (20 < (pyStrip line).length) &&
        !onlySpecialChars (pyStrip line)) =
        (decide (20 < (pyStrip line).length) &&
          !((pyStrip line).all fun c => !pyIsWord c && !pyIsSpace c)) := by
      cases hl : pyStrip line with
      | nil => simp [onlySpecialChars]
      | cons c cs => simp [onlySpecialChars]
    simp only [scanTitleLoop, List.map_cons, List.find?_cons, hc]
    by_cases hcond : (decide (20 < (pyStrip line).length) &&
        !((pyStrip line).all fun c => !pyIsWord c && !pyIsSpace c)) = true
    · rw [if_pos hcond, hcond]
    · rw [if_neg hcond]
      simp only [Bool.not_eq_true] at hcond
      rw [hcond]
      exact ih

/-- Claim C9: when the structured title is not truthy and the document
has a first page, the extractor succeeds and its title is exactly the
spec-modelled fallback (the first stripped line, among the first 20 lines
of the first page's text, longer than 20 characters and not composed
entirely of non-word/non-space characters); when no line qualifies the
title keeps its untruthy structured value, i.e. stays unset. -/
theorem c9_title_fallback (doc : PdfDoc) (text : String) (rest : List String)
    (hp : doc.pages = text :: rest)
    (ht : pyTruthy (structuredFields doc).1 = false) :
    ∃ m, extract_pdf_metadata (Except.ok ⟨200, PdfBody.valid doc⟩) = Except.ok m ∧
      m.title = (match specTitleFallback text with
                 | some t => some t
                 | none => (structuredFields doc).1) ∧
      (specTitleFallback text = none → pyTruthy m.title = false) := by
  have hred : extract_pdf_metadata (Except.ok ⟨200, PdfBody.valid doc⟩) =
      (match titleResult doc with
       | Except.error e => Except.error e
       | Except.ok title =>
         Except.ok ⟨title, (structuredFields doc).2,
           publication_from (structuredFields doc).2⟩) := rfl
  have htitle : titleResult doc = Except.ok
      (match scanTitleLoop ((splitOnChar '\n' text.toList).take 20) with
       | some l => some (String.mk l)
       | none => (structuredFields doc).1) := by
    unfold titleResult
    rw [if_neg (by simp [ht]), hp]
  rw [scanTitleLoop_eq_find?] at htitle
  have hspec : specTitleFallback text =
      ((((splitOnChar '\n' text.toList).take 20).map pyStrip).find? fun s =>
        decide (20 < s.length) && !(s.all fun c => !pyIsWord c && !pyIsSpace c)).map
        String.mk := rfl
  cases hf : (((splitOnChar '\n' text.toList).take 20).map pyStrip).find? (fun s =>
      decide (20 < s.length) && !(s.all fun c => !pyIsWord c && !pyIsSpace c)) with
  | some l =>
    simp only [hf] at htitle
    refine ⟨⟨some (String.mk l), (structuredFields doc).2,
      publication_from (structuredFields doc).2⟩, ?_, ?_, ?_⟩
    · rw [hred, htitle]
    · rw [hspec, hf, Option.map_some']
    · intro hnone
      rw [hspec, hf] at hnone
      simp at hnone
  | none =>
    simp only [hf] at htitle
    refine ⟨⟨(structuredFields doc).1, (structuredFields doc).2,
      publication_from (structuredFields doc).2⟩, ?_, ?_, fun _ => ht⟩
    · rw [hred, htitle]
    · rw [hspec, hf, Option.map_none']

/-- Witness for C9: a document with no information dictionary whose first
page starts with a long title line falls back to that line. -/
theorem c9_title_fallback_witness :
    ∃ m, extract_pdf_metadata (Except.ok ⟨200, PdfBody.valid
        ⟨none, ["ETSI TS 103 224 V1.7.1 (2025-11)\nshort"]⟩⟩) = Except.ok m ∧
      m.title = (match specTitleFallback "ETSI TS 103 224 V1.7.1 (2025-11)\nshort" with
                 | some t => some t
                 | none => (structuredFields ⟨none,
                     ["ETSI TS 103 224 V1.7.1 (2025-11)\nshort"]⟩).1) ∧
      (specTitleFallback "ETSI TS 103 224 V1.7.1 (2025-11)\nshort" = none →
        pyTruthy m.title = false) :=
  c9_title_fallback ⟨none, ["ETSI TS 103 224 V1.7.1 (2025-11)\nshort"]⟩
    "ETSI TS 103 224 V1.7.1 (2025-11)\nshort" [] rfl rfl

end GetEtsiSpec
